import Mathlib

/-!
# SearchOnAmazon: verification development for `script.js`

The JavaScript of `script.js` is embedded shallowly: text is a list of
characters, JavaScript numbers that come out of `parseFloat` are kept as the
exact mathematical value of the parsed literal (the run-time number is its
IEEE-754 rounding), fallible browser calls are outcome functions supplied by the
environment, and the effects of a run are recorded in an explicit log. Console
output is not recorded, and the four `page.set...` calls of lines 41-46 are one
step.
-/

namespace SearchOnAmazon

/-! ## JavaScript text primitives -/

/-- JavaScript text, as the list of its characters. -/
abbrev Text := List Char

/-- The regular-expression class `\d`: the ASCII digits. -/
def isDigit (c : Char) : Bool :=
  decide ('0'.toNat ≤ c.toNat) && decide (c.toNat ≤ '9'.toNat)

/-- The regular-expression class `[\d,]`. -/
def isDigitOrComma (c : Char) : Bool :=
  isDigit c || c == ','

/-- The code points that `String.prototype.trim` and `parseFloat` strip:
ECMAScript WhiteSpace and LineTerminator. -/
def isWhiteSpace (c : Char) : Bool :=
  let n := c.toNat
  n == 0x09 || n == 0x0A || n == 0x0B || n == 0x0C || n == 0x0D || n == 0x20 ||
  n == 0xA0 || n == 0x1680 || (decide (0x2000 ≤ n) && decide (n ≤ 0x200A)) ||
  n == 0x2028 || n == 0x2029 || n == 0x202F || n == 0x205F || n == 0x3000 ||
  n == 0xFEFF

/-- Models `String.prototype.trim`. -/
def trim (s : Text) : Text :=
  ((s.dropWhile isWhiteSpace).reverse.dropWhile isWhiteSpace).reverse

/-- Models `s.replace(',', '')` with a string pattern: only the first comma is
removed. -/
def replaceFirstComma : Text → Text
  | [] => []
  | c :: cs => if c == ',' then cs else c :: replaceFirstComma cs

/-! ## The regular expression `/([\d,]+\.\d+)/` -/

/-- Greedy, backtracking `p+` followed by the continuation `k`: one character of
class `p` is consumed, then as many more as possible; when the longer attempt
fails the continuation is tried at the shorter one. Returns the matched text. -/
def matchPlus (p : Char → Bool) (k : Text → Option Text) : Text → Option Text
  | [] => none
  | c :: cs =>
    if p c then
      match matchPlus p k cs with
      | some m => some (c :: m)
      | none => (k cs).map (fun m => c :: m)
    else none

/-- The literal `\.` followed by the continuation `k`. -/
def matchDot (k : Text → Option Text) : Text → Option Text
  | [] => none
  | c :: cs => if c == '.' then (k cs).map (fun m => c :: m) else none

/-- End of the pattern: the empty match. -/
def matchEnd (_ : Text) : Option Text := some []

/-- The pattern `[\d,]+\.\d+` anchored at the head of the text. -/
def priceRegexAt (s : Text) : Option Text :=
  matchPlus isDigitOrComma (matchDot (matchPlus isDigit matchEnd)) s

/-- Models `priceText.match(/([\d,]+\.\d+)/)`: the match at the leftmost start
position that has one; the result is capture group 1 (the whole match). -/
def priceMatch : Text → Option Text
  | [] => none
  | c :: cs =>
    match priceRegexAt (c :: cs) with
    | some m => some m
    | none => priceMatch cs

/-! ## `parseFloat` -/

/-- Result of `parseFloat`: `nan`, a signed infinity, or a finite literal kept
as its exact mathematical value (the run-time number is the IEEE-754 double
nearest to it). -/
inductive JSNum where
  | nan : JSNum
  | inf (negative : Bool) : JSNum
  | fin (q : ℚ) : JSNum
  deriving DecidableEq

/-- Numeric value of one decimal digit. -/
def digitVal (c : Char) : Nat := c.toNat - '0'.toNat

/-- Value of a run of decimal digits read as a natural number. -/
def digitsVal (ds : Text) : Nat :=
  ds.foldl (fun acc c => 10 * acc + digitVal c) 0

/-- The optional `ExponentPart` at the head of the text: `e` or `E`, an optional
sign and at least one digit. Absent or malformed exponents contribute 0. -/
def exponentPart : Text → Int
  | [] => 0
  | c :: cs =>
    if c == 'e' || c == 'E' then
      match cs with
      | [] => 0
      | d :: ds =>
        if d == '-' then - (digitsVal (ds.takeWhile isDigit) : Int)
        else if d == '+' then (digitsVal (ds.takeWhile isDigit) : Int)
        else (digitsVal ((d :: ds).takeWhile isDigit) : Int)
    else 0

/-- The longest prefix that is a `StrUnsignedDecimalLiteral`, as its value:
`Infinity`, digits with an optional fraction, or a fraction alone, each with an
optional exponent. `none` when no prefix qualifies. -/
def unsignedLiteral (s : Text) : Option JSNum :=
  if "Infinity".toList.isPrefixOf s then some (JSNum.inf false)
  else
    let ip := s.takeWhile isDigit
    let r := s.dropWhile isDigit
    match r with
    | '.' :: r1 =>
      let fp := r1.takeWhile isDigit
      let r2 := r1.dropWhile isDigit
      if ip.isEmpty && fp.isEmpty then none
      else some (JSNum.fin
        (((digitsVal ip : ℚ) + (digitsVal fp : ℚ) / (10 : ℚ) ^ fp.length)
          * (10 : ℚ) ^ exponentPart r2))
    | _ =>
      if ip.isEmpty then none
      else some (JSNum.fin ((digitsVal ip : ℚ) * (10 : ℚ) ^ exponentPart r))

/-- Negation of a parsed number. -/
def JSNum.neg : JSNum → JSNum
  | JSNum.nan => JSNum.nan
  | JSNum.inf b => JSNum.inf (!b)
  | JSNum.fin q => JSNum.fin (-q)

/-- Models the global `parseFloat`: leading white space is skipped, then the
longest prefix that is a `StrDecimalLiteral` is read; when there is none the
result is `NaN`. -/
def parseFloat (s : Text) : JSNum :=
  match s.dropWhile isWhiteSpace with
  | '-' :: r => ((unsignedLiteral r).map JSNum.neg).getD JSNum.nan
  | '+' :: r => (unsignedLiteral r).getD JSNum.nan
  | r => (unsignedLiteral r).getD JSNum.nan

/-! ## `extractPrice` (script.js 134-139) -/

/-- Models `extractPrice`: the argument is the `textContent` of the price
element, `none` when `querySelector` returned `null`. -/
def extractPrice (priceElement : Option Text) : Option JSNum :=
  match priceElement with
  | none => none
  | some textContent =>
    let priceText := trim textContent
    match priceMatch priceText with
    | some m => some (parseFloat (replaceFirstComma m))
    | none => none

/-! ## The listing subtree and `item.querySelector` -/

/-- The selectors that the extraction callback passes to `item.querySelector`
(script.js 149-175). -/
inductive Sel where
  /-- `h2 a span` -/
  | h2ASpan
  /-- `.a-size-medium` -/
  | aSizeMedium
  /-- `h2.a-size-mini a` -/
  | h2SizeMiniA
  /-- `.s-title-instructions-style h2` -/
  | titleInstructionsH2
  /-- `.a-price .a-offscreen` -/
  | priceOffscreen
  /-- `.a-price-whole` -/
  | priceWhole
  /-- `.a-color-price` -/
  | colorPrice
  /-- `.s-price-instructions-style .a-color-base` -/
  | priceInstructionsBase
  /-- `.s-image` -/
  | sImage
  /-- `img[data-image-latency="s-product-image"]` -/
  | imgLatency
  /-- `.s-product-image-container img` -/
  | imageContainerImg
  /-- `h2 a` -/
  | h2A
  deriving DecidableEq

/-- One element of a listing's subtree: which selectors it matches (relative to
the listing), its `textContent`, its `src` and `href` properties (`none` for
`undefined`) and its `data-src` attribute (`none` when `getAttribute` gives
`null`). -/
structure Element where
  isMatch : Sel → Bool
  textContent : Text
  src : Option Text
  dataSrc : Option Text
  href : Option Text

/-- One listing (`item`): its descendant elements in document order and its
`data-asin` attribute. -/
structure Listing where
  descendants : List Element
  dataAsin : Option Text

/-- Models `item.querySelector(group)` for a comma-separated selector group:
the first descendant in document order that matches any selector of the
group. -/
def querySelector (group : List Sel) (item : Listing) : Option Element :=
  item.descendants.find? (fun e => group.any e.isMatch)

/-- The selector group of the title query (script.js 149-154). -/
def nameSelectors : List Sel :=
  [Sel.h2ASpan, Sel.aSizeMedium, Sel.h2SizeMiniA, Sel.titleInstructionsH2]

/-- The selector group of the price query (script.js 157-162). -/
def priceSelectors : List Sel :=
  [Sel.priceOffscreen, Sel.priceWhole, Sel.colorPrice, Sel.priceInstructionsBase]

/-- The selector group of the image query (script.js 165-169). -/
def imageSelectors : List Sel :=
  [Sel.sImage, Sel.imgLatency, Sel.imageContainerImg]

/-- JavaScript `a || b` on optional text: `a` when it is truthy (present and
non-empty), otherwise `b`. -/
def orElse (a b : Option Text) : Option Text :=
  match a with
  | some (c :: cs) => some (c :: cs)
  | _ => b

/-- A record as returned by the `items.map` callback (script.js 171-177). -/
structure Product where
  title : Option Text
  price : Option JSNum
  imageUrl : Option Text
  url : Option Text
  asin : Option Text
  deriving DecidableEq

/-- The `items.map` callback (script.js 147-177). -/
def extractProduct (item : Listing) : Product :=
  let nameElement := querySelector nameSelectors item
  let priceElement := querySelector priceSelectors item
  let imageElement := querySelector imageSelectors item
  { title := orElse (nameElement.map (fun e => trim e.textContent)) none
    price := extractPrice (priceElement.map (fun e => e.textContent))
    imageUrl := orElse (imageElement.bind (fun e => e.src))
      (orElse (imageElement.bind (fun e => e.dataSrc)) none)
    url := orElse ((querySelector [Sel.h2A] item).bind (fun e => e.href)) none
    asin := orElse item.dataAsin none }

/-! ## The validity filter (script.js 178) -/

/-- Whether the double nearest to the exact value is `0`: round-to-nearest
sends exactly the values of magnitude at most `2 ^ (-1075)` to zero. -/
def roundsToZero (q : ℚ) : Bool :=
  decide (|q| ≤ 1 / 2 ^ 1075)

/-- JavaScript truthiness of a number: `NaN` and zero are falsy. -/
def JSNum.truthy : JSNum → Bool
  | JSNum.nan => false
  | JSNum.inf _ => true
  | JSNum.fin q => !roundsToZero q

/-- Truthiness of `product.title`: `null` and the empty text are falsy. -/
def titleTruthy : Option Text → Bool
  | some (_ :: _) => true
  | _ => false

/-- Truthiness of `product.price`: `null`, `NaN` and zero are falsy. -/
def priceTruthy : Option JSNum → Bool
  | some x => x.truthy
  | none => false

/-- The filter predicate `product.title && product.price`. -/
def isValid (product : Product) : Bool :=
  titleTruthy product.title && priceTruthy product.price

/-- The value of `products`: `items.map(...).filter(...)` (script.js 147-178). -/
def extractProducts (items : List Listing) : List Product :=
  (items.map extractProduct).filter isValid

/-! ## Effects of a run -/

/-- The calls of a run whose order matters. -/
inductive Call where
  | launch
  | newPage
  | configure
  | goto (attempt : Nat)
  | delay (ms : Nat)
  | detectCaptcha
  | waitCaptchaGone
  | waitForSelector (selector : String)
  | typeQuery (selector : String)
  | randomDelay
  | pressEnter
  | autoScroll
  | evaluateProducts
  | writeSnapshot (products : List Product)
  | screenshotResults
  | screenshotError
  | close
  deriving DecidableEq

/-- One entry of the log of a run: a call and whether it completed normally. -/
structure Event where
  call : Call
  ok : Bool
  deriving DecidableEq

/-- What a run can throw: an error raised by a browser or file-system call, or
one of the three `new Error(...)` of the script. -/
inductive RunError (ε : Type) where
  | env (e : ε)
  | notLoaded
  | searchBoxNotFound
  | resultsNotFound
  deriving DecidableEq

/-- A computation of the script: the calls it made, in order, and how it
completed (a value, or a thrown error). -/
structure Run (ε α : Type) where
  log : List Event
  result : Except (RunError ε) α

/-- Sequencing: the second computation runs only when the first completes
normally; a thrown error propagates. -/
def Run.andThen {ε α β : Type} (a : Run ε α) (f : α → Run ε β) : Run ε β :=
  match a.result with
  | Except.ok x => { log := a.log ++ (f x).log, result := (f x).result }
  | Except.error e => { log := a.log, result := Except.error e }

instance {ε : Type} : Monad (Run ε) where
  pure x := { log := [], result := Except.ok x }
  bind a f := Run.andThen a f

/-- An awaited call: it is logged with its outcome, and its error, if any, is
thrown. -/
def call {ε α : Type} (c : Call) (outcome : Except ε α) : Run ε α :=
  match outcome with
  | Except.ok x => { log := [{ call := c, ok := true }], result := Except.ok x }
  | Except.error e =>
    { log := [{ call := c, ok := false }], result := Except.error (RunError.env e) }

/-- The statement `throw e`. -/
def raise {ε α : Type} (e : RunError ε) : Run ε α :=
  { log := [], result := Except.error e }

/-- JavaScript `try { body } catch (error) { handler } finally { cleanup }`:
the handler runs when the body throws, the cleanup runs in every case, and an
error thrown by the cleanup replaces the earlier completion. -/
def tryCatchFinally {ε α : Type} (body : Run ε α)
    (handler : RunError ε → Run ε α) (cleanup : Run ε Unit) : Run ε α :=
  let caught : Run ε α :=
    match body.result with
    | Except.ok x => { log := body.log, result := Except.ok x }
    | Except.error e =>
      { log := body.log ++ (handler e).log, result := (handler e).result }
  match cleanup.result with
  | Except.ok _ => { log := caught.log ++ cleanup.log, result := caught.result }
  | Except.error e => { log := caught.log ++ cleanup.log, result := Except.error e }

/-- The outcomes of the calls that the script makes on the browser, the page
and the file system. A call made once per loop iteration is indexed by the
iteration (attempt number or selector candidate). -/
structure Env (ε : Type) where
  launch : Except ε Unit
  newPage : Except ε Unit
  configure : Except ε Unit
  goto : Nat → Except ε Unit
  detectCaptcha : Except ε Bool
  waitCaptchaGone : Except ε Unit
  waitForSelector : String → Except ε Unit
  typeQuery : String → Except ε Unit
  pressEnter : String → Except ε Unit
  autoScroll : Except ε Unit
  items : Except ε (List Listing)
  writeSnapshot : Except ε Unit
  screenshotResults : Except ε Unit
  screenshotError : Except ε Unit
  close : Except ε Unit

/-! ## Navigation with retry (script.js 49-66) -/

/-- The loop `for (let attempt = 1; attempt <= 3; attempt++)`, from the given
value of `attempt`; the value is `loaded` at loop exit. -/
def navigationLoop {ε : Type} (env : Env ε) (attempt : Nat) : Run ε Bool :=
  if attempt ≤ 3 then
    match env.goto attempt with
    | Except.ok _ =>
      { log := [{ call := Call.goto attempt, ok := true }], result := Except.ok true }
    | Except.error err =>
      if attempt = 3 then
        { log := [{ call := Call.goto attempt, ok := false }],
          result := Except.error (RunError.env err) }
      else
        Run.andThen
          { log := [{ call := Call.goto attempt, ok := false },
                    { call := Call.delay 5000, ok := true }],
            result := Except.ok () }
          (fun _ => navigationLoop env (attempt + 1))
  else { log := [], result := Except.ok false }
termination_by 4 - attempt

/-- Lines 49-66: the retry loop and the check of `loaded` after it. -/
def navigate {ε : Type} (env : Env ε) : Run ε Unit := do
  let loaded ← navigationLoop env 1
  if !loaded then raise RunError.notLoaded
  pure ()

/-! ## Selector-candidate loops (script.js 83-127) -/

/-- The candidates for the search box, in list order. -/
def searchBoxSelectors : List String :=
  ["#twotabsearchtextbox", "input[name=\"field-keywords\"]",
   "#nav-search-bar-form input[type=\"text\"]"]

/-- The candidates for the results container, in list order. -/
def resultsSelector : List String :=
  ["[data-component-type=\"s-search-result\"]", ".s-result-item", ".s-main-slot"]

/-- The loop `for (const selector of searchBoxSelectors)` over the remaining
candidates, with the current value of `searchBoxFound`; the value is
`searchBoxFound` at loop exit. Every error inside the `try` is caught and the
loop continues with the next candidate. -/
def searchBoxLoop {ε : Type} (env : Env ε) : List String → Bool → Run ε Bool
  | [], found => { log := [], result := Except.ok found }
  | selector :: rest, found =>
    match env.waitForSelector selector with
    | Except.error _ =>
      Run.andThen
        { log := [{ call := Call.waitForSelector selector, ok := false }],
          result := Except.ok () }
        (fun _ => searchBoxLoop env rest found)
    | Except.ok _ =>
      match env.typeQuery selector with
      | Except.error _ =>
        Run.andThen
          { log := [{ call := Call.waitForSelector selector, ok := true },
                    { call := Call.typeQuery selector, ok := false }],
            result := Except.ok () }
          (fun _ => searchBoxLoop env rest true)
      | Except.ok _ =>
        match env.pressEnter selector with
        | Except.error _ =>
          Run.andThen
            { log := [{ call := Call.waitForSelector selector, ok := true },
                      { call := Call.typeQuery selector, ok := true },
                      { call := Call.randomDelay, ok := true },
                      { call := Call.pressEnter, ok := false }],
              result := Except.ok () }
            (fun _ => searchBoxLoop env rest true)
        | Except.ok _ =>
          { log := [{ call := Call.waitForSelector selector, ok := true },
                    { call := Call.typeQuery selector, ok := true },
                    { call := Call.randomDelay, ok := true },
                    { call := Call.pressEnter, ok := true }],
            result := Except.ok true }

/-- Lines 83-105: the search-box loop and the check of `searchBoxFound`. -/
def submitSearch {ε : Type} (env : Env ε) : Run ε Unit := do
  let searchBoxFound ← searchBoxLoop env searchBoxSelectors false
  if !searchBoxFound then raise RunError.searchBoxNotFound
  pure ()

/-- The loop `for (const selector of resultsSelector)` over the remaining
candidates, with the current value of `resultsFound`. -/
def resultsLoop {ε : Type} (env : Env ε) : List String → Bool → Run ε Bool
  | [], found => { log := [], result := Except.ok found }
  | selector :: rest, found =>
    match env.waitForSelector selector with
    | Except.error _ =>
      Run.andThen
        { log := [{ call := Call.waitForSelector selector, ok := false }],
          result := Except.ok () }
        (fun _ => resultsLoop env rest found)
    | Except.ok _ =>
      { log := [{ call := Call.waitForSelector selector, ok := true }],
        result := Except.ok true }

/-- Lines 108-127: the results loop and the check of `resultsFound`. -/
def confirmResults {ε : Type} (env : Env ε) : Run ε Unit := do
  let resultsFound ← resultsLoop env resultsSelector false
  if !resultsFound then raise RunError.resultsNotFound
  pure ()

/-! ## The run (script.js 23-199) -/

/-- Lines 69-80: the CAPTCHA check and the wait for its manual resolution. -/
def challengeGate {ε : Type} (env : Env ε) : Run ε Unit := do
  let captchaDetected ← call Call.detectCaptcha env.detectCaptcha
  if captchaDetected then call Call.waitCaptchaGone env.waitCaptchaGone
  pure ()

/-- Lines 40-130: the steps of the `try` block that precede the extraction. -/
def beforeExtraction {ε : Type} (env : Env ε) : Run ε Unit := do
  call Call.configure env.configure
  navigate env
  challengeGate env
  submitSearch env
  confirmResults env
  call Call.autoScroll env.autoScroll

/-- Lines 40-188: the `try` block. -/
def tryBlock {ε : Type} (env : Env ε) : Run ε Unit := do
  beforeExtraction env
  let items ← call Call.evaluateProducts env.items
  let products := extractProducts items
  call (Call.writeSnapshot products) env.writeSnapshot
  call Call.screenshotResults env.screenshotResults

/-- Lines 190-195: the `catch` block. -/
def catchBlock {ε : Type} (env : Env ε) (_ : RunError ε) : Run ε Unit :=
  call Call.screenshotError env.screenshotError

/-- Lines 196-198: the `finally` block. -/
def finallyBlock {ε : Type} (env : Env ε) : Run ε Unit :=
  call Call.close env.close

/-- Lines 23-199: the body of the top-level asynchronous function. -/
def main {ε : Type} (env : Env ε) : Run ε Unit := do
  call Call.launch env.launch
  call Call.newPage env.newPage
  tryCatchFinally (tryBlock env) (catchBlock env) (finallyBlock env)

/-! ## `autoScroll` (script.js 202-219) -/

/-- The interval callback of `autoScroll`, run tick after tick: the callback
reads `document.body.scrollHeight` and `window.innerHeight` (given per tick),
scrolls by `distance = 100`, adds it to `totalHeight`, and clears the timer when
`totalHeight >= scrollHeight - innerHeight`. The arguments are the ticks still
allowed, the ticks already run and the current `totalHeight`; the result is the
number of ticks run and the final `totalHeight`, or `none` when the timer is
still running after the allowed ticks. Each tick makes one `scrollBy(0, 100)`,
so `totalHeight` is also the cumulative distance scrolled. -/
def autoScrollTicks (scrollHeight innerHeight : Nat → Int) :
    Nat → Nat → Int → Option (Nat × Int)
  | 0, _, _ => none
  | fuel + 1, tick, totalHeight =>
    let distance : Int := 100
    let totalHeight := totalHeight + distance
    if totalHeight ≥ scrollHeight tick - innerHeight tick then
      some (tick + 1, totalHeight)
    else autoScrollTicks scrollHeight innerHeight fuel (tick + 1) totalHeight

/-- Models `autoScroll`: the timer starts with `totalHeight = 0`. -/
def autoScroll (scrollHeight innerHeight : Nat → Int) (fuel : Nat) :
    Option (Nat × Int) :=
  autoScrollTicks scrollHeight innerHeight fuel 0 0

/-! ## The words of the specification, for comparison -/

/-- The specification's lookup rule, in its words: the strategies are tried in
their listed priority order, each against the whole subtree, and the first one
that yields a non-empty value wins. -/
def specFirstNonEmpty (value : Element → Option Text) (item : Listing) :
    List Sel → Option Text
  | [] => none
  | strategy :: rest =>
    match (querySelector [strategy] item).bind value with
    | some (c :: cs) => some (c :: cs)
    | _ => specFirstNonEmpty value item rest

/-- The title that the specification's lookup rule gives. -/
def specTitle (item : Listing) : Option Text :=
  specFirstNonEmpty (fun e => some (trim e.textContent)) item nameSelectors

/-- The price that the specification's lookup rule gives: the text of the first
strategy with a non-empty result, post-processed by `extractPrice`. -/
def specPrice (item : Listing) : Option JSNum :=
  extractPrice (specFirstNonEmpty (fun e => some e.textContent) item priceSelectors)

/-! ## Concrete inputs -/

/-- An element that matches exactly one selector and carries the given text. -/
def textElement (sel : Sel) (text : String) : Element :=
  { isMatch := fun s => decide (s = sel)
    textContent := text.toList
    src := none
    dataSrc := none
    href := none }

/-- A listing whose `.a-size-medium` element precedes its `h2 a span` element
in document order. -/
def reorderedListing : Listing :=
  { descendants := [textElement Sel.aSizeMedium "Beta", textElement Sel.h2ASpan "Alpha"]
    dataAsin := none }

/-- A listing whose `h2 a span` element has blank text and is followed by a
non-empty `.a-size-medium` element. -/
def blankFirstListing : Listing :=
  { descendants := [textElement Sel.h2ASpan " ", textElement Sel.aSizeMedium "Beta"]
    dataAsin := none }

/-- A listing whose `.a-color-price` element precedes its
`.a-price .a-offscreen` element in document order. -/
def reorderedPriceListing : Listing :=
  { descendants :=
      [textElement Sel.colorPrice "List: 20.50", textElement Sel.priceOffscreen "10.25"]
    dataAsin := none }

/-- A listing with a title and the given price text. -/
def pricedListing (priceText : String) : Listing :=
  { descendants :=
      [textElement Sel.h2ASpan "X-Laptop", textElement Sel.priceOffscreen priceText]
    dataAsin := none }

/-- A record with the title `X-Laptop` and the given price. -/
def laptop (q : ℚ) : Product :=
  { title := some "X-Laptop".toList
    price := some (JSNum.fin q)
    imageUrl := none
    url := none
    asin := none }

/-- A listing with a title and no price element. -/
def pricelessListing : Listing :=
  { descendants := [textElement Sel.h2ASpan "X-Laptop"]
    dataAsin := none }

/-- Ten listings in document order: the third and the seventh have no price
element, the other eight have a title and a non-zero price. -/
def tenListings : List Listing :=
  [pricedListing "1.50", pricedListing "2.50", pricelessListing, pricedListing "3.50",
   pricedListing "4.50", pricedListing "5.50", pricelessListing, pricedListing "6.50",
   pricedListing "7.50", pricedListing "8.50"]

/-! ## Observations on a log -/

/-- Whether a call completed normally. -/
def succeeded {ε α : Type} : Except ε α → Bool
  | Except.ok _ => true
  | Except.error _ => false

/-- The attempt numbers of the `page.goto` calls of a log, in order. -/
def gotoAttempts (log : List Event) : List Nat :=
  log.filterMap (fun ev => match ev.call with
    | Call.goto attempt => some attempt
    | _ => none)

/-- The selectors of the `page.waitForSelector` calls of a log, in order: the
candidates that were attempted. -/
def candidatesTried (log : List Event) : List String :=
  log.filterMap (fun ev => match ev.call with
    | Call.waitForSelector selector => some selector
    | _ => none)

/-- Whether the log holds a completed write of the record snapshot. -/
def snapshotWritten (log : List Event) : Bool :=
  log.any (fun ev => match ev.call with
    | Call.writeSnapshot _ => ev.ok
    | _ => false)

/-- The record lists handed to the snapshot write, in order. -/
def snapshotPayloads (log : List Event) : List (List Product) :=
  log.filterMap (fun ev => match ev.call with
    | Call.writeSnapshot products => some products
    | _ => none)

/-- Whether the failure path was taken: the error screenshot was requested. -/
def errorScreenshotTaken (log : List Event) : Bool :=
  log.any (fun ev => match ev.call with
    | Call.screenshotError => true
    | _ => false)

/-- How many times `browser.close()` was called. -/
def closeCount (log : List Event) : Nat :=
  log.countP (fun ev => match ev.call with
    | Call.close => true
    | _ => false)

/-- The calls made by the steps that precede the extraction. -/
def isPipelineCall : Call → Bool
  | Call.configure => true
  | Call.goto _ => true
  | Call.delay _ => true
  | Call.detectCaptcha => true
  | Call.waitCaptchaGone => true
  | Call.waitForSelector _ => true
  | Call.typeQuery _ => true
  | Call.randomDelay => true
  | Call.pressEnter => true
  | Call.autoScroll => true
  | _ => false

/-- Whether a record has both a title and a non-zero price: the title is a
non-empty text and the price is a number other than zero. -/
def hasTitleAndNonZeroPrice (p : Product) : Prop :=
  (∃ t, p.title = some t ∧ t ≠ []) ∧
    ∃ x, p.price = some x ∧ x ≠ JSNum.nan ∧ ∀ q, x = JSNum.fin q → roundsToZero q = false

/-! ## Concrete environments -/

/-- An environment in which every call succeeds and the page has no listing. -/
def allOk : Env String :=
  { launch := Except.ok ()
    newPage := Except.ok ()
    configure := Except.ok ()
    goto := fun _ => Except.ok ()
    detectCaptcha := Except.ok false
    waitCaptchaGone := Except.ok ()
    waitForSelector := fun _ => Except.ok ()
    typeQuery := fun _ => Except.ok ()
    pressEnter := fun _ => Except.ok ()
    autoScroll := Except.ok ()
    items := Except.ok []
    writeSnapshot := Except.ok ()
    screenshotResults := Except.ok ()
    screenshotError := Except.ok ()
    close := Except.ok () }

/-- Navigation fails three times, with a different error each time. -/
def navFails : Env String :=
  { allOk with goto := fun attempt =>
      if attempt = 1 then Except.error "timeout-1"
      else if attempt = 2 then Except.error "timeout-2"
      else Except.error "timeout-3" }

/-- The first search-box candidate appears, but typing into it fails. -/
def typingFails : Env String :=
  { allOk with typeQuery := fun selector =>
      if selector = "#twotabsearchtextbox" then Except.error "not focusable"
      else Except.ok () }

/-- The results screenshot fails after a successful extraction and write. -/
def resultsScreenshotFails : Env String :=
  { allOk with screenshotResults := Except.error "screenshot failed" }

/-- Opening the page fails after the browser was launched. -/
def newPageFails : Env String :=
  { allOk with newPage := Except.error "Target closed" }

/-! # Theorems -/

/-! ## `extractPrice` at the inputs of the claims -/

/-- A parsed value of magnitude at least one does not round to zero. -/
theorem roundsToZero_of_one_le (q : ℚ) (h : 1 ≤ q) : roundsToZero q = false := by
  have h1 : (1 : ℚ) / 2 ^ 1075 < 1 := by
    rw [div_lt_one (by positivity)]
    exact one_lt_pow₀ (by norm_num) (by norm_num)
  have h2 : q ≤ |q| := le_abs_self q
  simp only [roundsToZero, decide_eq_false_iff_not, not_le]
  linarith

/-- Claim C1: on the text `1,299,999.50`, which has two thousands separators,
`extractPrice` returns 1299, because `replace(',', '')` removes only the first
comma and `parseFloat` stops at the second; the number obtained by removing
every comma from the token and reading it as a decimal is 1299999.5. On the
text `1,299.50`, with one separator, the result is 1299.5. -/
theorem extractPrice_strips_only_first_comma :
    extractPrice (some "1,299,999.50".toList) = some (JSNum.fin 1299) ∧
      parseFloat ("1,299,999.50".toList.filter (fun c => c != ',')) =
        JSNum.fin (2599999 / 2) ∧
      extractPrice (some "1,299.50".toList) = some (JSNum.fin (2599 / 2)) := by
  refine ⟨?_, ?_, ?_⟩
  · simp [extractPrice, trim, priceMatch, priceRegexAt, matchPlus, matchDot, matchEnd,
      isDigitOrComma, isDigit, isWhiteSpace, replaceFirstComma, parseFloat,
      unsignedLiteral, digitsVal, digitVal, exponentPart]
  · simp [isDigit, isWhiteSpace, parseFloat, unsignedLiteral, digitsVal, digitVal,
      exponentPart]
    norm_num
  · simp [extractPrice, trim, priceMatch, priceRegexAt, matchPlus, matchDot, matchEnd,
      isDigitOrComma, isDigit, isWhiteSpace, replaceFirstComma, parseFloat,
      unsignedLiteral, digitsVal, digitVal, exponentPart]
    norm_num

/-- Claim C9: on the text `,,.5` the regular expression matches the whole text,
only the first comma is removed, and `parseFloat` of `,.5` is `NaN`: the value
returned by `extractPrice` is neither absent nor a finite number. With every
comma removed the token reads as 0.5. -/
theorem extractPrice_nan_on_leading_commas :
    extractPrice (some ",,.5".toList) = some JSNum.nan ∧
      parseFloat (",,.5".toList.filter (fun c => c != ',')) = JSNum.fin (1 / 2) := by
  constructor
  · simp [extractPrice, trim, priceMatch, priceRegexAt, matchPlus, matchDot, matchEnd,
      isDigitOrComma, isDigit, isWhiteSpace, replaceFirstComma, parseFloat,
      unsignedLiteral, digitsVal, digitVal, exponentPart]
  · simp [isDigit, isWhiteSpace, parseFloat, unsignedLiteral, digitsVal, digitVal,
      exponentPart]
    norm_num

/-- The record extracted from a listing with a title and a price text. -/
theorem extractProduct_pricedListing (priceText : String) :
    extractProduct (pricedListing priceText) =
      { title := some "X-Laptop".toList
        price := extractPrice (some priceText.toList)
        imageUrl := none
        url := none
        asin := none } := by
  rfl

/-- Claim C2: a listing with the non-empty title `X-Laptop` and the price text
`0.00` yields a record whose title is present and whose price is present and
equal to 0, and the filter `product.title && product.price` drops it, because 0
is falsy. -/
theorem zero_price_record_dropped :
    (extractProduct (pricedListing "0.00")).title = some "X-Laptop".toList ∧
      (extractProduct (pricedListing "0.00")).price = some (JSNum.fin 0) ∧
      extractProducts [pricedListing "0.00"] = [] := by
  have hp : (extractProduct (pricedListing "0.00")).price = some (JSNum.fin 0) := by
    rw [extractProduct_pricedListing]
    simp [extractPrice, trim, priceMatch, priceRegexAt, matchPlus, matchDot, matchEnd,
      isDigitOrComma, isDigit, isWhiteSpace, replaceFirstComma, parseFloat,
      unsignedLiteral, digitsVal, digitVal, exponentPart]
  refine ⟨rfl, hp, ?_⟩
  simp [extractProducts, isValid, hp, priceTruthy, JSNum.truthy, roundsToZero]


theorem querySelector_split (group : List Sel) (item : Listing) (pre post : List Element)
    (e : Element) (h : item.descendants = pre ++ e :: post)
    (hpre : ∀ x ∈ pre, ∀ s ∈ group, x.isMatch s = false)
    (he : ∃ s ∈ group, e.isMatch s = true) :
    querySelector group item = some e := by
  unfold querySelector
  rw [h, List.find?_append]
  have h1 : List.find? (fun e => group.any e.isMatch) pre = none := by
    rw [List.find?_eq_none]
    intro x hx
    simp only [List.any_eq_true, not_exists, not_and, Bool.not_eq_true]
    intro s hs
    exact hpre x hx s hs
  have h2 : group.any e.isMatch = true := by
    simpa [List.any_eq_true] using he
  simp [h1, h2]

theorem orElse_none_eq (t : Text) : orElse (some t) none = if t = [] then none else some t := by
  cases t <;> simp [orElse]

/-- What the extraction callback does for title, price and image: each comes
from one `querySelector` call on the group of all the selectors of the field, so
the element used is the first descendant in document order that matches any of
the selectors. The title is the trimmed text of that element when it is
non-empty and absent otherwise, the price is `extractPrice` of its text, the
image is its `src` or else its `data-src`. -/
theorem extractProduct_first_document_match (item : Listing) (pre post : List Element)
    (e : Element) (h : item.descendants = pre ++ e :: post) :
    ((∀ x ∈ pre, ∀ s ∈ nameSelectors, x.isMatch s = false) →
      (∃ s ∈ nameSelectors, e.isMatch s = true) →
      (extractProduct item).title =
        if trim e.textContent = [] then none else some (trim e.textContent)) ∧
    ((∀ x ∈ pre, ∀ s ∈ priceSelectors, x.isMatch s = false) →
      (∃ s ∈ priceSelectors, e.isMatch s = true) →
      (extractProduct item).price = extractPrice (some e.textContent)) ∧
    ((∀ x ∈ pre, ∀ s ∈ imageSelectors, x.isMatch s = false) →
      (∃ s ∈ imageSelectors, e.isMatch s = true) →
      (extractProduct item).imageUrl = orElse e.src (orElse e.dataSrc none)) := by
  refine ⟨?_, ?_, ?_⟩
  · intro hpre he
    simp only [extractProduct, querySelector_split _ item pre post e h hpre he,
      Option.map_some', orElse_none_eq]
  · intro hpre he
    simp only [extractProduct, querySelector_split _ item pre post e h hpre he,
      Option.map_some']
  · intro hpre he
    simp only [extractProduct, querySelector_split _ item pre post e h hpre he,
      Option.some_bind]

/-- Claim C3: the extractor does not honour the listed priority order. When a
`.a-size-medium` element precedes the `h2 a span` element in document order,
the title is taken from the `.a-size-medium` element, while the priority rule
gives the text of the `h2 a span` element. When a `.a-color-price` element
precedes the `.a-price .a-offscreen` element, the price is 20.5 from the
former, while the priority rule gives 10.25. When the first matching element
has blank text the title is absent, while the priority rule falls through to
the next strategy. -/
theorem first_document_match_beats_priority :
    (extractProduct reorderedListing).title = some "Beta".toList ∧
      specTitle reorderedListing = some "Alpha".toList ∧
      (extractProduct reorderedPriceListing).price = some (JSNum.fin (41 / 2)) ∧
      specPrice reorderedPriceListing = some (JSNum.fin (41 / 4)) ∧
      (extractProduct blankFirstListing).title = none ∧
      specTitle blankFirstListing = some "Beta".toList := by
  refine ⟨by decide, by decide, ?_, ?_, by decide, by decide⟩
  · have h : (extractProduct reorderedPriceListing).price =
        extractPrice (some "List: 20.50".toList) := rfl
    rw [h]
    simp [extractPrice, trim, priceMatch, priceRegexAt, matchPlus, matchDot, matchEnd,
      isDigitOrComma, isDigit, isWhiteSpace, replaceFirstComma, parseFloat,
      unsignedLiteral, digitsVal, digitVal, exponentPart]
    norm_num
  · have h : specPrice reorderedPriceListing = extractPrice (some "10.25".toList) := rfl
    rw [h]
    simp [extractPrice, trim, priceMatch, priceRegexAt, matchPlus, matchDot, matchEnd,
      isDigitOrComma, isDigit, isWhiteSpace, replaceFirstComma, parseFloat,
      unsignedLiteral, digitsVal, digitVal, exponentPart]
    norm_num

/-- In a listing whose `.a-size-medium` element precedes its `h2 a span`
element, the title comes from the `.a-size-medium` element. -/
theorem extractProduct_first_document_match_witness :
    reorderedListing.descendants =
        [] ++ textElement Sel.aSizeMedium "Beta" :: [textElement Sel.h2ASpan "Alpha"] ∧
      (extractProduct reorderedListing).title = some "Beta".toList := by
  refine ⟨rfl, ?_⟩
  have h := (extractProduct_first_document_match reorderedListing []
    [textElement Sel.h2ASpan "Alpha"] (textElement Sel.aSizeMedium "Beta") rfl).1
    (by simp) ⟨Sel.aSizeMedium, by decide, by decide⟩
  rw [h]
  decide

theorem Run.bind_eq {ε α β : Type} (a : Run ε α) (f : α → Run ε β) :
    a >>= f = Run.andThen a f := rfl

theorem Run.pure_eq {ε α : Type} (x : α) :
    (pure x : Run ε α) = { log := [], result := Except.ok x } := rfl

/-- Claim C4: the retry loop calls `page.goto` for attempts 1, 2, 3 in order and
stops at the first success; it throws if and only if attempts 1, 2 and 3 all
fail, and then exactly the three attempts were made and the error thrown is the
error of the third attempt. -/
theorem navigate_three_attempts {ε : Type} (env : Env ε) :
    (∀ k, k ∈ [1, 2, 3] → succeeded (env.goto k) = true →
      (∀ j, 1 ≤ j → j < k → succeeded (env.goto j) = false) →
      gotoAttempts (navigate env).log = List.range' 1 k ∧
        (navigate env).result = Except.ok ()) ∧
    ((∀ k, k ∈ [1, 2, 3] → succeeded (env.goto k) = false) →
      gotoAttempts (navigate env).log = [1, 2, 3] ∧
        ∃ e, env.goto 3 = Except.error e ∧
          (navigate env).result = Except.error (RunError.env e)) ∧
    (succeeded (navigate env).result = false ↔
      ∀ k, k ∈ [1, 2, 3] → succeeded (env.goto k) = false) := by
  rcases h1 : env.goto 1 with e1 | u1 <;> rcases h2 : env.goto 2 with e2 | u2 <;>
    rcases h3 : env.goto 3 with e3 | u3 <;>
    simp [navigate, navigationLoop, Run.bind_eq, Run.pure_eq, Run.andThen, raise,
      gotoAttempts, succeeded, h1, h2, h3, List.range']
  all_goals first
    | (refine ⟨1, by omega, by omega, ?_⟩; rw [h1]; done)
    | (refine ⟨2, by omega, by omega, ?_⟩; rw [h2])
    | (refine ⟨⟨1, by omega, by omega, ?_⟩, ⟨1, by omega, by omega, ?_⟩⟩ <;> rw [h1])

/-- Witness for claim C4: three failing attempts with three different errors. -/
theorem navigate_three_attempts_witness :
    gotoAttempts (navigate navFails).log = [1, 2, 3] ∧
      ∃ e, navFails.goto 3 = Except.error e ∧
        (navigate navFails).result = Except.error (RunError.env e) :=
  (navigate_three_attempts navFails).2.1 (by decide)

theorem candidatesTried_searchBoxLoop {ε : Type} (env : Env ε) (sels : List String)
    (found : Bool) : candidatesTried (searchBoxLoop env sels found).log <+: sels := by
  induction sels generalizing found with
  | nil => simp [searchBoxLoop, candidatesTried]
  | cons s rest ih =>
    have key : ∀ b, s :: candidatesTried (searchBoxLoop env rest b).log <+: s :: rest :=
      fun b => (List.prefix_cons_inj s).2 (ih b)
    unfold searchBoxLoop
    rcases env.waitForSelector s with e | u
    · simpa [Run.andThen, candidatesTried] using key found
    · rcases env.typeQuery s with e | u
      · simpa [Run.andThen, candidatesTried] using key true
      · rcases env.pressEnter s with e | u
        · simpa [Run.andThen, candidatesTried] using key true
        · simp [candidatesTried]

theorem candidatesTried_resultsLoop {ε : Type} (env : Env ε) (sels : List String)
    (found : Bool) : candidatesTried (resultsLoop env sels found).log <+: sels := by
  induction sels generalizing found with
  | nil => simp [resultsLoop, candidatesTried]
  | cons s rest ih =>
    have key : ∀ b, s :: candidatesTried (resultsLoop env rest b).log <+: s :: rest :=
      fun b => (List.prefix_cons_inj s).2 (ih b)
    unfold resultsLoop
    rcases env.waitForSelector s with e | u
    · simpa [Run.andThen, candidatesTried] using key found
    · simp [candidatesTried]

theorem submitSearch_log {ε : Type} (env : Env ε) :
    (submitSearch env).log = (searchBoxLoop env searchBoxSelectors false).log := by
  simp only [submitSearch, Run.bind_eq, Run.pure_eq, Run.andThen, raise]
  rcases (searchBoxLoop env searchBoxSelectors false).result with e | b
  · simp
  · cases b <;> simp

theorem confirmResults_log {ε : Type} (env : Env ε) :
    (confirmResults env).log = (resultsLoop env resultsSelector false).log := by
  simp only [confirmResults, Run.bind_eq, Run.pure_eq, Run.andThen, raise]
  rcases (resultsLoop env resultsSelector false).result with e | b
  · simp
  · cases b <;> simp

/-- Claim C5, amended: in both selector loops the candidates are attempted in
list order. In the results loop no later candidate is attempted when the first
one is present. In the search-box loop no later candidate is attempted when the
first one is present and typing the query and pressing Enter on it succeed. -/
theorem selector_loops_short_circuit {ε : Type} (env : Env ε) :
    candidatesTried (submitSearch env).log <+: searchBoxSelectors ∧
    candidatesTried (confirmResults env).log <+: resultsSelector ∧
    (succeeded (env.waitForSelector "#twotabsearchtextbox") = true →
      succeeded (env.typeQuery "#twotabsearchtextbox") = true →
      succeeded (env.pressEnter "#twotabsearchtextbox") = true →
      candidatesTried (submitSearch env).log = ["#twotabsearchtextbox"]) ∧
    (succeeded (env.waitForSelector "[data-component-type=\"s-search-result\"]") = true →
      candidatesTried (confirmResults env).log =
        ["[data-component-type=\"s-search-result\"]"]) := by
  refine ⟨?_, ?_, ?_, ?_⟩
  · rw [submitSearch_log]; exact candidatesTried_searchBoxLoop env _ _
  · rw [confirmResults_log]; exact candidatesTried_resultsLoop env _ _
  · intro hw ht hp
    rw [submitSearch_log]
    unfold searchBoxSelectors searchBoxLoop
    rcases h1 : env.waitForSelector "#twotabsearchtextbox" with e | u
    · simp [h1, succeeded] at hw
    rcases h2 : env.typeQuery "#twotabsearchtextbox" with e | u
    · simp [h2, succeeded] at ht
    rcases h3 : env.pressEnter "#twotabsearchtextbox" with e | u
    · simp [h3, succeeded] at hp
    simp [candidatesTried]
  · intro hw
    rw [confirmResults_log]
    unfold resultsSelector resultsLoop
    rcases h1 : env.waitForSelector "[data-component-type=\"s-search-result\"]" with e | u
    · simp [h1, succeeded] at hw
    simp [candidatesTried]

/-- Counterexample to claim C5: the first search-box candidate is present but
typing into it fails; the error is caught, the loop continues, and the second
candidate is attempted. -/
theorem later_candidate_tried_after_typing_failure :
    succeeded (typingFails.waitForSelector "#twotabsearchtextbox") = true ∧
      candidatesTried (submitSearch typingFails).log =
        ["#twotabsearchtextbox", "input[name=\"field-keywords\"]"] := by
  decide

/-- Witness for claim C5: every call succeeds, and only the first candidate of
each loop is attempted. -/
theorem selector_loops_short_circuit_witness :
    candidatesTried (submitSearch allOk).log = ["#twotabsearchtextbox"] ∧
    candidatesTried (confirmResults allOk).log =
      ["[data-component-type=\"s-search-result\"]"] :=
  ⟨(selector_loops_short_circuit allOk).2.2.1 (by decide) (by decide) (by decide),
   (selector_loops_short_circuit allOk).2.2.2 (by decide)⟩

theorem Run.andThen_log_forall {ε α β : Type} (P : Event → Prop) (a : Run ε α)
    (f : α → Run ε β) (ha : ∀ ev ∈ a.log, P ev) (hf : ∀ x, ∀ ev ∈ (f x).log, P ev) :
    ∀ ev ∈ (Run.andThen a f).log, P ev := by
  unfold Run.andThen
  rcases a.result with e | x
  · exact ha
  · intro ev hev
    rcases List.mem_append.1 hev with h | h
    · exact ha ev h
    · exact hf x ev h

theorem call_log_forall {ε α : Type} (P : Event → Prop) (c : Call) (o : Except ε α)
    (h : ∀ b, P { call := c, ok := b }) : ∀ ev ∈ (call c o).log, P ev := by
  rcases o with e | x <;> simp [call, h]

theorem navigationLoop_pipeline {ε : Type} (env : Env ε) (fuel attempt : Nat)
    (h : 4 - attempt ≤ fuel) :
    ∀ ev ∈ (navigationLoop env attempt).log, isPipelineCall ev.call = true := by
  induction fuel generalizing attempt with
  | zero =>
    rw [navigationLoop]
    have : ¬ attempt ≤ 3 := by omega
    simp [this]
  | succ n ih =>
    rw [navigationLoop]
    split
    · rcases env.goto attempt with e | u
      · by_cases h3 : attempt = 3
        · simp [h3, isPipelineCall]
        · simp only [h3, if_false]
          apply Run.andThen_log_forall
          · simp [isPipelineCall]
          · intro _
            exact ih (attempt + 1) (by omega)
      · simp [isPipelineCall]
    · simp

theorem searchBoxLoop_pipeline {ε : Type} (env : Env ε) (sels : List String) (found : Bool) :
    ∀ ev ∈ (searchBoxLoop env sels found).log, isPipelineCall ev.call = true := by
  induction sels generalizing found with
  | nil => simp [searchBoxLoop]
  | cons s rest ih =>
    unfold searchBoxLoop
    rcases env.waitForSelector s with e | u
    · exact Run.andThen_log_forall _ _ _ (by simp [isPipelineCall]) (fun _ => ih found)
    · rcases env.typeQuery s with e | u
      · exact Run.andThen_log_forall _ _ _ (by simp [isPipelineCall]) (fun _ => ih true)
      · rcases env.pressEnter s with e | u
        · exact Run.andThen_log_forall _ _ _ (by simp [isPipelineCall]) (fun _ => ih true)
        · simp [isPipelineCall]

theorem resultsLoop_pipeline {ε : Type} (env : Env ε) (sels : List String) (found : Bool) :
    ∀ ev ∈ (resultsLoop env sels found).log, isPipelineCall ev.call = true := by
  induction sels generalizing found with
  | nil => simp [resultsLoop]
  | cons s rest ih =>
    unfold resultsLoop
    rcases env.waitForSelector s with e | u
    · exact Run.andThen_log_forall _ _ _ (by simp [isPipelineCall]) (fun _ => ih found)
    · simp [isPipelineCall]

theorem beforeExtraction_pipeline {ε : Type} (env : Env ε) :
    ∀ ev ∈ (beforeExtraction env).log, isPipelineCall ev.call = true := by
  simp only [beforeExtraction, navigate, challengeGate, submitSearch, confirmResults,
    Run.bind_eq]
  apply Run.andThen_log_forall
  · exact call_log_forall _ _ _ (by simp [isPipelineCall])
  intro _
  apply Run.andThen_log_forall
  · apply Run.andThen_log_forall
    · exact navigationLoop_pipeline env 4 1 (by omega)
    · intro b; cases b <;> simp [Run.andThen, raise, Run.pure_eq]
  intro _
  apply Run.andThen_log_forall
  · apply Run.andThen_log_forall
    · exact call_log_forall _ _ _ (by simp [isPipelineCall])
    · intro b
      cases b
      · simp [Run.andThen, Run.pure_eq]
      · simp only [if_true]
        apply Run.andThen_log_forall
        · exact call_log_forall _ _ _ (by simp [isPipelineCall])
        · intro _; simp [Run.pure_eq]
  intro _
  apply Run.andThen_log_forall
  · apply Run.andThen_log_forall
    · exact searchBoxLoop_pipeline env _ _
    · intro b; cases b <;> simp [Run.andThen, raise, Run.pure_eq]
  intro _
  apply Run.andThen_log_forall
  · apply Run.andThen_log_forall
    · exact resultsLoop_pipeline env _ _
    · intro b; cases b <;> simp [Run.andThen, raise, Run.pure_eq]
  intro _
  exact call_log_forall _ _ _ (by simp [isPipelineCall])

theorem pipeline_no_snapshot (log : List Event)
    (h : ∀ ev ∈ log, isPipelineCall ev.call = true) :
    snapshotWritten log = false ∧ snapshotPayloads log = [] ∧
      errorScreenshotTaken log = false ∧ closeCount log = 0 := by
  induction log with
  | nil => simp [snapshotWritten, snapshotPayloads, errorScreenshotTaken, closeCount]
  | cons ev rest ih =>
    have hev := h ev (List.mem_cons_self _ _)
    have hrest := ih (fun x hx => h x (List.mem_cons_of_mem _ hx))
    simp only [snapshotWritten, snapshotPayloads, errorScreenshotTaken, closeCount] at hrest ⊢
    rcases ev with ⟨c, b⟩
    cases c <;> simp_all [isPipelineCall]

theorem succeeded_ok {ε α : Type} (x : α) :
    succeeded (Except.ok x : Except ε α) = true := rfl

theorem succeeded_error {ε α : Type} (e : ε) :
    succeeded (Except.error e : Except ε α) = false := rfl

theorem tryBlock_facts {ε : Type} (env : Env ε) :
    snapshotWritten (tryBlock env).log =
        (succeeded (beforeExtraction env).result && succeeded env.items &&
          succeeded env.writeSnapshot) ∧
      errorScreenshotTaken (tryBlock env).log = false ∧
      closeCount (tryBlock env).log = 0 ∧
      succeeded (tryBlock env).result =
        (succeeded (beforeExtraction env).result && succeeded env.items &&
          succeeded env.writeSnapshot && succeeded env.screenshotResults) ∧
      (∀ its, env.items = Except.ok its →
        succeeded (beforeExtraction env).result = true →
        snapshotPayloads (tryBlock env).log = [extractProducts its]) := by
  obtain ⟨h1, h2, h3, h4⟩ := pipeline_no_snapshot _ (beforeExtraction_pipeline env)
  simp only [snapshotWritten, errorScreenshotTaken, closeCount, snapshotPayloads]
    at h1 h2 h3 h4
  rcases hb : (beforeExtraction env).result with e | u <;>
    rcases hi : env.items with e | its <;>
    rcases hw : env.writeSnapshot with e | u <;>
    rcases hs : env.screenshotResults with e | u <;>
    simp [tryBlock, call, Run.bind_eq, Run.andThen, snapshotWritten, errorScreenshotTaken,
      closeCount, snapshotPayloads, succeeded_ok, succeeded_error, hb, hi, hw, hs, h1, h2,
      h3, h4]

/-- Counterexample to claim C7: when every step up to the snapshot write
succeeds and the results screenshot fails, the run takes the failure path (the
error screenshot is requested) although the record snapshot was written. -/
theorem snapshot_written_on_failure_path :
    errorScreenshotTaken (main resultsScreenshotFails).log = true ∧
      snapshotWritten (main resultsScreenshotFails).log = true := by
  simp [main, tryBlock, beforeExtraction, navigate, navigationLoop, challengeGate,
    submitSearch, searchBoxSelectors, searchBoxLoop, confirmResults, resultsSelector,
    resultsLoop, catchBlock, finallyBlock, tryCatchFinally, call, raise, Run.bind_eq,
    Run.pure_eq, Run.andThen, resultsScreenshotFails, allOk, errorScreenshotTaken,
    snapshotWritten]

/-- Claim C7, amended: the record snapshot is written exactly in the runs in
which the launch, the page opening, every step before the extraction, the
extraction and the write itself succeed; a run that takes the failure path has
a written snapshot only when the step that failed is the results screenshot,
which comes after the write. -/
theorem snapshot_written_iff_write_reached {ε : Type} (env : Env ε) :
    (snapshotWritten (main env).log = true ↔
      succeeded env.launch = true ∧ succeeded env.newPage = true ∧
        succeeded (beforeExtraction env).result = true ∧ succeeded env.items = true ∧
        succeeded env.writeSnapshot = true) ∧
    (errorScreenshotTaken (main env).log = true →
      snapshotWritten (main env).log = true →
      succeeded env.screenshotResults = false) := by
  obtain ⟨h1, h2, -, h4, -⟩ := tryBlock_facts env
  simp only [snapshotWritten, errorScreenshotTaken] at h1 h2
  rcases hl : env.launch with e | u <;> rcases hn : env.newPage with e | u <;>
    rcases ht : (tryBlock env).result with e | u <;>
    rcases he : env.screenshotError with e | u <;>
    rcases hc : env.close with e | u <;>
    simp [main, catchBlock, finallyBlock, tryCatchFinally, call, Run.bind_eq,
      Run.andThen, snapshotWritten, errorScreenshotTaken, succeeded_ok, succeeded_error,
      hl, hn, ht, he, hc, h1, h2, and_assoc] <;>
    simp [ht, succeeded_ok, succeeded_error] at h4 <;> simp_all

/-- Witness for claim C7: every call succeeds, and the snapshot is written. -/
theorem snapshot_written_iff_write_reached_witness :
    snapshotWritten (main allOk).log = true :=
  (snapshot_written_iff_write_reached allOk).1.2
    ⟨by decide, by decide,
      by simp [beforeExtraction, navigate, navigationLoop, challengeGate, submitSearch,
        searchBoxSelectors, searchBoxLoop, confirmResults, resultsSelector, resultsLoop,
        call, raise, Run.bind_eq, Run.pure_eq, Run.andThen, allOk, succeeded_ok],
      by decide, by decide⟩

/-- Claim C8: when `browser.newPage()` fails after a successful launch, the run
ends after the two calls and `browser.close()` is never called, because the
page is opened before the `try` statement; once the page is open, the browser is
closed exactly once on every exit path. -/
theorem browser_left_open_when_newPage_fails :
    (main newPageFails).log =
        [{ call := Call.launch, ok := true }, { call := Call.newPage, ok := false }] ∧
      closeCount (main newPageFails).log = 0 ∧
      ∀ (ε : Type) (env : Env ε), succeeded env.launch = true →
        succeeded env.newPage = true → closeCount (main env).log = 1 := by
  refine ⟨by decide, by decide, ?_⟩
  intro ε env hl hn
  obtain ⟨-, -, h3, -, -⟩ := tryBlock_facts env
  rcases hl' : env.launch with e | u
  · simp [hl', succeeded_error] at hl
  rcases hn' : env.newPage with e | u
  · simp [hn', succeeded_error] at hn
  rcases ht : (tryBlock env).result with e | u <;>
    rcases he : env.screenshotError with e | u <;>
    rcases hc : env.close with e | u <;>
    simp [main, catchBlock, finallyBlock, tryCatchFinally, call, Run.bind_eq,
      Run.andThen, closeCount, hl', hn', ht, he, hc, List.countP_cons, List.countP_append] <;>
    simpa [closeCount] using h3

theorem isValid_iff (p : Product) : isValid p = true ↔ hasTitleAndNonZeroPrice p := by
  rcases p with ⟨title, price, i, u, a⟩
  simp only [isValid, hasTitleAndNonZeroPrice, Bool.and_eq_true]
  constructor
  · rintro ⟨ht, hp⟩
    constructor
    · rcases title with _ | t
      · simp [titleTruthy] at ht
      · cases t
        · simp [titleTruthy] at ht
        · exact ⟨_, rfl, by simp⟩
    · rcases price with _ | x
      · simp [priceTruthy] at hp
      · refine ⟨x, rfl, ?_, ?_⟩
        · rintro rfl; simp [priceTruthy, JSNum.truthy] at hp
        · rintro q rfl; simpa [priceTruthy, JSNum.truthy] using hp
  · rintro ⟨⟨t, rfl, ht⟩, x, rfl, hx, hq⟩
    constructor
    · cases t
      · exact absurd rfl ht
      · rfl
    · cases x with
      | nan => exact absurd rfl hx
      | inf b => rfl
      | fin q => simpa [priceTruthy, JSNum.truthy] using hq q rfl

theorem valid_sublist_le_filter (cands l : List Product) (hl : l.Sublist cands)
    (hv : ∀ p ∈ l, isValid p = true) : l.Sublist (cands.filter isValid) := by
  have h := hl.filter isValid
  rwa [List.filter_eq_self.2 hv] at h

theorem filter_length_le (cands : List Product) :
    (cands.filter isValid).length + cands.countP (fun p => p.price.isNone) ≤
      cands.length := by
  induction cands with
  | nil => simp
  | cons p rest ih =>
    rcases p with ⟨title, price, i, u, a⟩
    cases price with
    | none =>
      simp [List.filter_cons, List.countP_cons, isValid, priceTruthy]
      omega
    | some x =>
      simp only [List.filter_cons, List.countP_cons, Option.isNone_some, List.length_cons]
      split <;> simp <;> omega

/-- Claim C6: the run result is a subsequence of the candidate records, its
members are exactly the candidates that pass the filter, and it contains every
subsequence of passing candidates, so it is the candidates that pass, in their
original order. For 10 listings of which 8 have a title and a non-zero price and
2 lack a price, the result is those 8 records in order. The list handed to the
snapshot write is exactly the run result. -/
theorem result_is_valid_subsequence (items : List Listing) :
    (extractProducts items).Sublist (items.map extractProduct) ∧
    (∀ p, p ∈ extractProducts items ↔ p ∈ items.map extractProduct ∧ isValid p = true) ∧
    (∀ l : List Product, l.Sublist (items.map extractProduct) →
      (∀ p ∈ l, isValid p = true) → l.Sublist (extractProducts items)) ∧
    (∀ kept : List Product, items.length = 10 → kept.length = 8 →
      kept.Sublist (items.map extractProduct) →
      (∀ p ∈ kept, hasTitleAndNonZeroPrice p) →
      (items.map extractProduct).countP (fun p => p.price.isNone) = 2 →
      extractProducts items = kept) ∧
    (∀ (ε : Type) (env : Env ε), succeeded env.launch = true →
      succeeded env.newPage = true → succeeded (beforeExtraction env).result = true →
      env.items = Except.ok items →
      snapshotPayloads (main env).log = [extractProducts items]) := by
  refine ⟨List.filter_sublist _, ?_, ?_, ?_, ?_⟩
  · intro p
    simp [extractProducts, List.mem_filter]
  · intro l hl hv
    exact valid_sublist_le_filter _ l hl hv
  · intro kept h10 h8 hsub hgood hnone
    have hk : kept.Sublist (extractProducts items) :=
      valid_sublist_le_filter _ kept hsub (fun p hp => (isValid_iff p).2 (hgood p hp))
    have hlen := filter_length_le (items.map extractProduct)
    rw [hnone, List.length_map, h10] at hlen
    have hle : (extractProducts items).length ≤ kept.length := by
      unfold extractProducts; omega
    exact (hk.eq_of_length_le hle).symm
  · intro ε env hl hn hb hi
    obtain ⟨-, -, -, -, h5⟩ := tryBlock_facts env
    have hp := h5 items hi hb
    rcases hl' : env.launch with e | u
    · simp [hl', succeeded_error] at hl
    rcases hn' : env.newPage with e | u
    · simp [hn', succeeded_error] at hn
    rcases ht : (tryBlock env).result with e | u <;>
      rcases he : env.screenshotError with e | u <;>
      rcases hc : env.close with e | u <;>
      simp [main, catchBlock, finallyBlock, tryCatchFinally, call, Run.bind_eq,
        Run.andThen, snapshotPayloads, hl', hn', ht, he, hc] <;>
      simpa [snapshotPayloads] using hp

/-- The candidate records of the ten listings, in document order. -/
theorem extractProduct_tenListings :
    tenListings.map extractProduct =
      [laptop (3 / 2), laptop (5 / 2), extractProduct pricelessListing, laptop (7 / 2),
       laptop (9 / 2), laptop (11 / 2), extractProduct pricelessListing, laptop (13 / 2),
       laptop (15 / 2), laptop (17 / 2)] := by
  simp only [tenListings, List.map_cons, List.map_nil, extractProduct_pricedListing, laptop]
  simp [extractPrice, trim, priceMatch, priceRegexAt, matchPlus, matchDot, matchEnd,
    isDigitOrComma, isDigit, isWhiteSpace, replaceFirstComma, parseFloat,
    unsignedLiteral, digitsVal, digitVal, exponentPart]
  norm_num

/-- A record with a title and a price of at least one has both a title and a
non-zero price. -/
theorem laptop_hasTitleAndNonZeroPrice (q : ℚ) (h : 1 ≤ q) :
    hasTitleAndNonZeroPrice (laptop q) := by
  refine ⟨⟨_, rfl, by decide⟩, JSNum.fin q, rfl, by simp, ?_⟩
  intro q' hq
  cases hq
  exact roundsToZero_of_one_le q h

/-- Witness for claim C6: ten listings of which the third and the seventh lack
a price and the other eight have a title and a non-zero price give exactly the
eight records, in document order. -/
theorem result_is_valid_subsequence_witness :
    extractProducts tenListings =
      [laptop (3 / 2), laptop (5 / 2), laptop (7 / 2), laptop (9 / 2), laptop (11 / 2),
       laptop (13 / 2), laptop (15 / 2), laptop (17 / 2)] := by
  refine (result_is_valid_subsequence tenListings).2.2.2.1 _ rfl rfl ?_ ?_ ?_
  · rw [extractProduct_tenListings]
    exact .cons₂ _ (.cons₂ _ (.cons _ (.cons₂ _ (.cons₂ _ (.cons₂ _ (.cons _
      (.cons₂ _ (.cons₂ _ (.cons₂ _ .slnil)))))))))
  · intro p hp
    simp only [List.mem_cons, List.mem_singleton, List.not_mem_nil, or_false] at hp
    rcases hp with rfl | rfl | rfl | rfl | rfl | rfl | rfl | rfl <;>
      exact laptop_hasTitleAndNonZeroPrice _ (by norm_num)
  · rw [extractProduct_tenListings]
    decide


theorem autoScrollTicks_stops (sh ih : Nat → Int) (D : Int) (hD : ∀ t, sh t - ih t = D)
    (n : Nat) (hn : D ≤ 100 * (n : Int))
    (hmin : ∀ j : Nat, 1 ≤ j → j < n → 100 * (j : Int) < D) :
    ∀ k fuel tick, tick + k + 1 = n → k + 1 ≤ fuel →
      autoScrollTicks sh ih fuel tick (100 * (tick : Int)) = some (n, 100 * (n : Int)) := by
  intro k
  induction k with
  | zero =>
    intro fuel tick ht hf
    obtain ⟨f, rfl⟩ : ∃ f, fuel = f + 1 := ⟨fuel - 1, by omega⟩
    have hn' : (n : Int) = (tick : Int) + 1 := by omega
    have hc : 100 * (tick : Int) + 100 ≥ sh tick - ih tick := by rw [hD]; omega
    simp only [autoScrollTicks, hc, if_true]
    have : tick + 1 = n := by omega
    rw [this, hn']
    congr 2
  | succ k ih' =>
    intro fuel tick ht hf
    obtain ⟨f, rfl⟩ : ∃ f, fuel = f + 1 := ⟨fuel - 1, by omega⟩
    have hlt := hmin (tick + 1) (by omega) (by omega)
    have hc : ¬ (100 * (tick : Int) + 100 ≥ sh tick - ih tick) := by
      rw [hD]; push_cast at hlt; omega
    simp only [autoScrollTicks, hc, if_false]
    have h := ih' f (tick + 1) (by omega) (by omega)
    have e : 100 * ((tick + 1 : Nat) : Int) = 100 * (tick : Int) + 100 := by
      push_cast; ring
    rw [e] at h
    exact h

theorem autoScrollTicks_running (sh ih : Nat → Int) (D : Int) (hD : ∀ t, sh t - ih t = D)
    (n : Nat) (hmin : ∀ j : Nat, 1 ≤ j → j < n → 100 * (j : Int) < D) :
    ∀ fuel tick, fuel + tick < n →
      autoScrollTicks sh ih fuel tick (100 * (tick : Int)) = none := by
  intro fuel
  induction fuel with
  | zero => intro tick _; rfl
  | succ f ih' =>
    intro tick ht
    have hlt := hmin (tick + 1) (by omega) (by omega)
    have hc : ¬ (100 * (tick : Int) + 100 ≥ sh tick - ih tick) := by
      rw [hD]; push_cast at hlt; omega
    simp only [autoScrollTicks, hc, if_false]
    have h := ih' (tick + 1) (by omega)
    have e : 100 * ((tick + 1 : Nat) : Int) = 100 * (tick : Int) + 100 := by
      push_cast; ring
    rw [e] at h
    exact h

/-- Claim C10: when the scrollable height `H` and the viewport height `V` stay
constant, the timer of `autoScroll` stops after exactly
`n = max 1 (ceil ((H - V) / 100))` ticks, with `totalHeight = 100 * n`: with at
least `n` ticks allowed the loop returns, with fewer it is still running. `n` is
at least 1 and `100 * n` is the least positive multiple of 100 that is at least
`H - V`. -/
theorem autoScroll_constant_page (H V : Int) (scrollHeight innerHeight : Nat → Int)
    (hH : ∀ t, scrollHeight t = H) (hV : ∀ t, innerHeight t = V) :
    ∃ n : Nat, (n : Int) = max 1 ⌈((H - V : Int) : ℚ) / 100⌉ ∧
      (∀ fuel, n ≤ fuel →
        autoScroll scrollHeight innerHeight fuel = some (n, 100 * (n : Int))) ∧
      (∀ fuel, fuel < n → autoScroll scrollHeight innerHeight fuel = none) ∧
      1 ≤ n ∧ H - V ≤ 100 * (n : Int) ∧
      ∀ m : Int, 1 ≤ m → H - V ≤ 100 * m → (n : Int) ≤ m := by
  have hD : ∀ t, scrollHeight t - innerHeight t = H - V := fun t => by rw [hH, hV]
  have hceil : ∀ m : Int, ⌈((H - V : Int) : ℚ) / 100⌉ ≤ m ↔ H - V ≤ 100 * m := by
    intro m
    rw [Int.ceil_le, div_le_iff₀ (by norm_num : (0 : ℚ) < 100)]
    rw [mul_comm, show (100 : ℚ) * (m : ℚ) = ((100 * m : Int) : ℚ) by push_cast; ring]
    exact Int.cast_le
  refine ⟨(max 1 ⌈((H - V : Int) : ℚ) / 100⌉).toNat, ?_⟩
  have hpos : (1 : Int) ≤ max 1 ⌈((H - V : Int) : ℚ) / 100⌉ := le_max_left _ _
  have hcast : (((max 1 ⌈((H - V : Int) : ℚ) / 100⌉).toNat : Nat) : Int) =
      max 1 ⌈((H - V : Int) : ℚ) / 100⌉ := Int.toNat_of_nonneg (by omega)
  have hge : H - V ≤ 100 * max 1 ⌈((H - V : Int) : ℚ) / 100⌉ :=
    (hceil _).1 (le_max_right _ _)
  have hleast : ∀ m : Int, 1 ≤ m → H - V ≤ 100 * m →
      max 1 ⌈((H - V : Int) : ℚ) / 100⌉ ≤ m :=
    fun m h1 h2 => max_le h1 ((hceil m).2 h2)
  generalize max 1 ⌈((H - V : Int) : ℚ) / 100⌉ = c at hpos hcast hge hleast ⊢
  have hmin : ∀ j : Nat, 1 ≤ j → j < c.toNat → 100 * (j : Int) < H - V := by
    intro j h1 h2
    by_contra hcon
    have := hleast j (by omega) (by omega)
    omega
  refine ⟨hcast, ?_, ?_, by omega, by omega, ?_⟩
  · intro fuel hf
    have h := autoScrollTicks_stops scrollHeight innerHeight (H - V) hD c.toNat
      (by omega) hmin (c.toNat - 1) fuel 0 (by omega) (by omega)
    simpa [autoScroll] using h
  · intro fuel hf
    have h := autoScrollTicks_running scrollHeight innerHeight (H - V) hD c.toNat hmin
      fuel 0 (by omega)
    simpa [autoScroll] using h
  · intro m h1 h2
    rw [hcast]
    exact hleast m h1 h2

/-- Witness for claim C10: a page of height 2350 in a viewport of height 900. -/
theorem autoScroll_constant_page_witness :
    ∃ n : Nat, (n : Int) = max 1 ⌈((2350 - 900 : Int) : ℚ) / 100⌉ ∧
      (∀ fuel, n ≤ fuel →
        autoScroll (fun _ => 2350) (fun _ => 900) fuel = some (n, 100 * (n : Int))) ∧
      (∀ fuel, fuel < n → autoScroll (fun _ => 2350) (fun _ => 900) fuel = none) ∧
      1 ≤ n ∧ (2350 : Int) - 900 ≤ 100 * (n : Int) ∧
      ∀ m : Int, 1 ≤ m → (2350 : Int) - 900 ≤ 100 * m → (n : Int) ≤ m :=
  autoScroll_constant_page 2350 900 (fun _ => 2350) (fun _ => 900)
    (fun _ => rfl) (fun _ => rfl)

end SearchOnAmazon
